import Mathlib

/-!
# Verification of the Discord target parser/resolver (`src/discord/targets.ts`)

Shallow embedding of the recipient-string parser, the directory-assisted
resolver and the disambiguator.  JavaScript strings are modelled as
`List Char`; JS `undefined` as `Option`; a thrown exception as
`Except.error` carrying the message.  The directory collaborator
(`listDiscordDirectoryPeersLive`) is a parameter of the resolver, so that
independence from the directory is expressible as parametricity.
-/

/-- A JavaScript string, modelled as its list of characters. -/
abbrev Str := List Char

/-- JS `s.trim()` (whitespace stripped from both ends). -/
def trim (s : Str) : Str :=
  ((s.dropWhile Char.isWhitespace).reverse.dropWhile Char.isWhitespace).reverse

/-- JS `s.toLowerCase()` (modelled character-wise, ASCII). -/
def toLowerS (s : Str) : Str := s.map Char.toLower

/-- JS regex test `/^\d+$/`. -/
def isAllDigits (s : Str) : Bool := !s.isEmpty && s.all Char.isDigit

/-- Whether the first character of `s` is `c0`. -/
def headIs (c0 : Char) (s : Str) : Bool :=
  match s with
  | [] => false
  | c :: _ => c == c0

/-- The last character of `s` is a decimal digit (JS regex `[\d]+$`, unanchored at the left). -/
def endsWithDigit (s : Str) : Bool :=
  match s.getLast? with
  | some c => c.isDigit
  | none => false

/-- JS `replace(/^@/, "")`: drop a single leading `@`. -/
def stripAt (s : Str) : Str :=
  match s with
  | [] => []
  | c :: r => if c = '@' then r else c :: r

/-- JS `replace(/^user:/, "")` on an already-lower-cased string. -/
def stripUserLower (s : Str) : Str :=
  if "user:".data.isPrefixOf s then s.drop 5 else s

/-- JS `replace(/^user:/i, "")`: case-insensitive strip of a leading `user:`. -/
def stripUserCI (s : Str) : Str :=
  if "user:".data.isPrefixOf (toLowerS s) then s.drop 5 else s

/-- Skip an optional leading `!` (the `!?` of the mention regex). -/
def dropBang (s : Str) : Str :=
  match s with
  | [] => []
  | c :: r => if c = '!' then r else c :: r

/-- JS `s.match(/^<@!?(\d+)>$/)`: the captured digit group, when the whole
string is a mention wrapper. -/
def mentionMatch (s : Str) : Option Str :=
  match s with
  | c1 :: c2 :: rest =>
    if c1 = '<' ∧ c2 = '@' then
      let body := dropBang rest
      let ds := body.takeWhile Char.isDigit
      if ds = [] then none
      else if body.dropWhile Char.isDigit = [ '>' ] then some ds
      else none
    else none
  | _ => none

/-- `MessagingTargetKind` from `channels/targets.js`: exactly two kinds. -/
inductive MessagingTargetKind where
  | user
  | channel
deriving DecidableEq, Repr

/-- `MessagingTarget` from `channels/targets.js`. -/
structure MessagingTarget where
  kind : MessagingTargetKind
  id : Str
  raw : Str
deriving DecidableEq, Repr

/-- `MessagingTargetParseOptions` from `channels/targets.js`. -/
structure MessagingTargetParseOptions where
  defaultKind : Option MessagingTargetKind := none
  ambiguousMessage : Option Str := none
deriving DecidableEq, Repr

/-- A directory entry as consumed by `selectDiscordUserMatch`. -/
structure DirectoryEntry where
  kind : Option Str := none
  id : Option Str := none
  name : Option Str := none
  handle : Option Str := none
deriving DecidableEq, Repr

/-- Modelled from the spec: `buildTarget(kind, id, raw) -> MessagingTarget`,
"fails if `id` is empty" (the helper lives in `channels/targets.js`, outside
this repository's sources). -/
def buildMessagingTarget (kind : MessagingTargetKind) (id : Str) (raw : Str) :
    Except Str MessagingTarget :=
  if id = [] then .error "messaging target id must not be empty".data
  else .ok ⟨kind, id, raw⟩

/-- Modelled from the spec: `assertId({candidate, pattern, errorMessage}) -> string`,
"fails with `errorMessage` if `candidate` does not match `pattern`" (the helper
`ensureTargetId` lives in `channels/targets.js`, outside this repository's sources). -/
def ensureTargetId (candidate : Str) (pat : Str → Bool) (errorMessage : Str) :
    Except Str Str :=
  if pat candidate then .ok candidate else .error errorMessage

/-- Modelled from the spec: `requireKind({platform, target, kind}) -> id`,
"fails with a platform-labeled message if `target` is undefined or
`target.kind !== kind`" (the helper `requireTargetKind` lives in
`channels/targets.js`, outside this repository's sources). -/
def kindMismatchMsg (platform : Str) : Str :=
  platform ++ " target kind mismatch".data

/-- Modelled from the spec: see `kindMismatchMsg`. -/
def requireTargetKind (platform : Str) (target : Option MessagingTarget)
    (kind : MessagingTargetKind) : Except Str Str :=
  match target with
  | none => .error (kindMismatchMsg platform)
  | some t => if t.kind = kind then .ok t.id else .error (kindMismatchMsg platform)

/-- The generic ambiguity message of `parseDiscordTarget` for a bare numeric string. -/
def ambiguousMsg (trimmed : Str) : Str :=
  "Ambiguous Discord recipient \"".data ++ trimmed ++ "\". Use \"user:".data ++
    trimmed ++ "\" for DMs or \"channel:".data ++ trimmed ++ "\" for channel messages.".data

/-- The error message of the `@`-sigil branch of `parseDiscordTarget`. -/
def mentionErrMsg : Str :=
  "Discord DMs require a user id (use user:<id> or a <@id> mention)".data

/-- `parseDiscordTarget` after the initial `raw.trim()`; every branch of the
source operates on the trimmed string. -/
def parseTrimmed (trimmed : Str) (options : MessagingTargetParseOptions) :
    Except Str (Option MessagingTarget) :=
  if trimmed = [] then .ok none
  else
    match mentionMatch trimmed with
    | some ds => (buildMessagingTarget .user ds trimmed).map some
    | none =>
      if "user:".data.isPrefixOf trimmed then
        let id := trim (trimmed.drop 5)
        if id = [] then .ok none else (buildMessagingTarget .user id trimmed).map some
      else if "channel:".data.isPrefixOf trimmed then
        let id := trim (trimmed.drop 8)
        if id = [] then .ok none else (buildMessagingTarget .channel id trimmed).map some
      else if "discord:".data.isPrefixOf trimmed then
        let id := trim (trimmed.drop 8)
        if id = [] then .ok none else (buildMessagingTarget .user id trimmed).map some
      else if headIs '@' trimmed then
        match ensureTargetId (trim (trimmed.drop 1)) isAllDigits mentionErrMsg with
        | .error e => .error e
        | .ok id => (buildMessagingTarget .user id trimmed).map some
      else if isAllDigits trimmed then
        match options.defaultKind with
        | some k => (buildMessagingTarget k trimmed trimmed).map some
        | none => .error (options.ambiguousMessage.getD (ambiguousMsg trimmed))
      else (buildMessagingTarget .channel trimmed trimmed).map some

/-- `parseDiscordTarget` from `src/discord/targets.ts`. -/
def parseDiscordTarget (raw : Str) (options : MessagingTargetParseOptions) :
    Except Str (Option MessagingTarget) :=
  parseTrimmed (trim raw) options

/-- `resolveDiscordChannelId` from `src/discord/targets.ts`. -/
def resolveDiscordChannelId (raw : Str) : Except Str Str :=
  match parseDiscordTarget raw { defaultKind := some .channel } with
  | .error e => .error e
  | .ok target => requireTargetKind "Discord".data target .channel

/-- `safeParseDiscordTarget` from `src/discord/targets.ts`: a thrown parse
error is swallowed to `undefined`. -/
def safeParseDiscordTarget (input : Str) (options : MessagingTargetParseOptions) :
    Option MessagingTarget :=
  match parseDiscordTarget input options with
  | .ok t => t
  | .error _ => none

/-- `isExplicitUserLookup` from `src/discord/targets.ts`. -/
def isExplicitUserLookup (input : Str) (options : MessagingTargetParseOptions) : Bool :=
  if (mentionMatch input).isSome then true
  else if "user:".data.isPrefixOf input || "discord:".data.isPrefixOf input then true
  else if headIs '@' input then true
  else if isAllDigits input then decide (options.defaultKind = some .user)
  else false

/-- `isLikelyUsername` from `src/discord/targets.ts`: the regex
`/^(user:|channel:|discord:|@|<@!?)|[\d]+$/` matches exactly when the string
starts with one of the five markers (for the prefix test `<@!?` is equivalent
to `<@`) or ends with a digit; the function negates that. -/
def isLikelyUsername (input : Str) : Bool :=
  !("user:".data.isPrefixOf input || "channel:".data.isPrefixOf input ||
    "discord:".data.isPrefixOf input || headIs '@' input ||
    "<@".data.isPrefixOf input || endsWithDigit input)

/-- The filter of `selectDiscordUserMatch`:
`entry.kind === "user" && entry.id` (JS truthiness: present and non-empty). -/
def isUserEntry (e : DirectoryEntry) : Bool :=
  decide (e.kind = some "user".data) &&
    (match e.id with
     | none => false
     | some i => !i.isEmpty)

/-- The exact-match test of `selectDiscordUserMatch`: the normalized `name`,
`handle` (leading `@` stripped) or `id` (leading `user:` stripped) equals the
normalized query. -/
def isExactDirMatch (query : Str) (e : DirectoryEntry) : Bool :=
  let nq := toLowerS (trim query)
  decide (e.name.map (fun n => toLowerS (trim n)) = some nq) ||
    decide (e.handle.map (fun h => stripAt (toLowerS (trim h))) = some nq) ||
    decide (e.id.map (fun i => stripUserLower (toLowerS (trim i))) = some nq)

/-- `selectDiscordUserMatch` from `src/discord/targets.ts`. -/
def selectDiscordUserMatch (query : Str) (entries : List DirectoryEntry) : Option Str :=
  let users := entries.filter isUserEntry
  if users.length = 0 then none
  else
    let exactMatches := users.filter (isExactDirMatch query)
    let selected :=
      if exactMatches.length = 1 then exactMatches.head?
      else if users.length = 1 then users.head?
      else none
    match selected with
    | none => none
    | some e =>
      match e.id with
      | none => none
      | some i =>
        if i = [] then none
        else
          let resolvedId := trim (stripUserCI i)
          if resolvedId = [] then none else some resolvedId

/-- The "did not match a user" message of `resolveDiscordTarget`. -/
def noMatchMsg (trimmed : Str) : Str :=
  "Discord recipient \"".data ++ trimmed ++
    "\" did not match a user. Use \"user:<id>\" or \"<@id>\" for DMs, or \"channel:<id>\" for channel messages.".data

/-- The "multiple users matched" message of `resolveDiscordTarget`. -/
def multiMatchMsg (trimmed : Str) : Str :=
  "Multiple Discord users matched \"".data ++ trimmed ++
    "\". Use \"user:<id>\" or \"<@id>\" to disambiguate.".data

/-- The condition of the resolver's early return:
`directParse && directParse.kind !== "channel" && !likelyUsername`. -/
def directBypass (directParse : Option MessagingTarget) (likelyUsername : Bool) : Bool :=
  match directParse with
  | none => false
  | some t => decide (t.kind ≠ .channel) && !likelyUsername

/-- `resolveDiscordTarget` from `src/discord/targets.ts`.  The external
directory `listDiscordDirectoryPeersLive` is abstracted as the function
argument `dir`, taking the query and the result limit. -/
def resolveDiscordTarget (raw : Str) (dir : Str → Nat → List DirectoryEntry)
    (parseOptions : MessagingTargetParseOptions) :
    Except Str (Option MessagingTarget) :=
  let trimmed := trim raw
  if trimmed = [] then .ok none
  else
    let likelyUsername := isLikelyUsername trimmed
    let shouldLookup := isExplicitUserLookup trimmed parseOptions || likelyUsername
    let directParse := safeParseDiscordTarget trimmed parseOptions
    if directBypass directParse likelyUsername then .ok directParse
    else if !shouldLookup then
      match directParse with
      | some t => .ok (some t)
      | none => parseDiscordTarget trimmed parseOptions
    else
      let directoryEntries := dir trimmed 5
      match selectDiscordUserMatch trimmed directoryEntries with
      | some selected => (buildMessagingTarget .user selected trimmed).map some
      | none =>
        if directoryEntries.length = 0 then .error (noMatchMsg trimmed)
        else .error (multiMatchMsg trimmed)

/-! ## Generic string lemmas -/

theorem head?_dropWhile_false {α : Type} (p : α → Bool) (l : List α) (c : α)
    (h : (l.dropWhile p).head? = some c) : p c = false := by
  have h' := List.head?_dropWhile_not p l
  rw [h] at h'
  exact h'

theorem dropWhile_eq_self_of_head {α : Type} (p : α → Bool) (l : List α)
    (h : ∀ c, l.head? = some c → p c = false) : l.dropWhile p = l := by
  cases l with
  | nil => rfl
  | cons a t =>
    exact List.dropWhile_cons_of_neg (by rw [h a rfl]; exact Bool.false_ne_true)

theorem trim_head_false (s : Str) (c : Char)
    (h : (trim s).head? = some c) : c.isWhitespace = false := by
  unfold trim at h
  rw [List.head?_reverse] at h
  have hsuf : (s.dropWhile Char.isWhitespace).reverse.dropWhile Char.isWhitespace <:+
      (s.dropWhile Char.isWhitespace).reverse := List.dropWhile_suffix Char.isWhitespace
  obtain ⟨pre, hpre⟩ := hsuf
  have hA : (s.dropWhile Char.isWhitespace).reverse.getLast? = some c := by
    rw [← hpre, List.getLast?_append, h]
    rfl
  rw [List.getLast?_reverse] at hA
  exact head?_dropWhile_false _ _ _ hA

theorem trim_getLast_false (s : Str) (c : Char)
    (h : (trim s).getLast? = some c) : c.isWhitespace = false := by
  unfold trim at h
  rw [List.getLast?_reverse] at h
  exact head?_dropWhile_false _ _ _ h

theorem trim_eq_self (t : Str)
    (h1 : ∀ c, t.head? = some c → c.isWhitespace = false)
    (h2 : ∀ c, t.getLast? = some c → c.isWhitespace = false) : trim t = t := by
  unfold trim
  rw [dropWhile_eq_self_of_head _ _ h1]
  rw [dropWhile_eq_self_of_head _ _ (by
    intro c hc
    rw [List.head?_reverse] at hc
    exact h2 c hc)]
  exact List.reverse_reverse t

theorem trim_idem (s : Str) : trim (trim s) = trim s :=
  trim_eq_self _ (trim_head_false s) (trim_getLast_false s)

theorem trim_of_no_ws (s : Str) (h : ∀ c ∈ s, c.isWhitespace = false) : trim s = s :=
  trim_eq_self s
    (fun c hc => h c (List.mem_of_mem_head? (by rw [hc]; rfl)))
    (fun c hc => h c (List.mem_of_mem_getLast? (by rw [hc]; rfl)))

theorem dropWhile_eq_nil_of_all {α : Type} (p : α → Bool) (l : List α)
    (h : ∀ c ∈ l, p c = true) : l.dropWhile p = [] := by
  induction l with
  | nil => rfl
  | cons a t ih =>
    rw [List.dropWhile_cons_of_pos (h a (by simp))]
    exact ih (fun c hc => h c (by simp [hc]))

theorem trim_append_ws (p s : Str)
    (hph : ∀ c, p.head? = some c → c.isWhitespace = false)
    (hs : ∀ c ∈ s, c.isWhitespace = true) : trim (p ++ s) = trim p := by
  cases p with
  | nil =>
    rw [List.nil_append]
    unfold trim
    rw [dropWhile_eq_nil_of_all _ s hs]
    rfl
  | cons a t =>
    have ha : Char.isWhitespace a = false := hph a rfl
    unfold trim
    rw [List.cons_append,
      List.dropWhile_cons_of_neg (by rw [ha]; exact Bool.false_ne_true),
      List.dropWhile_cons_of_neg (by rw [ha]; exact Bool.false_ne_true),
      ← List.cons_append, List.reverse_append,
      List.dropWhile_append_of_pos (by
        intro c hc
        exact hs c (List.mem_reverse.mp hc))]

theorem digit_not_ws {c : Char} (h : c.isDigit = true) : c.isWhitespace = false := by
  by_contra hw
  rw [Bool.not_eq_false] at hw
  unfold Char.isWhitespace at hw
  simp only [Bool.or_eq_true, decide_eq_true_eq] at hw
  rcases hw with ((rfl | rfl) | rfl) | rfl <;> exact absurd h (by decide)

theorem beq_false_of_digit {c c' : Char} (h : c.isDigit = true)
    (h' : c'.isDigit = false) : (c' == c) = false := by
  rw [Bool.eq_false_iff]
  intro hb
  rw [beq_iff_eq] at hb
  subst hb
  rw [h] at h'
  exact absurd h' (by decide)

theorem beq_false_of_digit' {c c' : Char} (h : c.isDigit = true)
    (h' : c'.isDigit = false) : (c == c') = false := by
  rw [Bool.eq_false_iff]
  intro hb
  rw [beq_iff_eq] at hb
  subst hb
  rw [h] at h'
  exact absurd h' (by decide)

theorem isPrefixOf_cons₂ (a b : Char) (as bs : Str) :
    (a :: as).isPrefixOf (b :: bs) = (a == b && as.isPrefixOf bs) := rfl

theorem mentionMatch_cons_ne {c : Char} (cs : Str) (h : c ≠ '<') :
    mentionMatch (c :: cs) = none := by
  cases cs with
  | nil => rfl
  | cons b u => simp [mentionMatch, h]

theorem mentionMatch_of_not_marker {s : Str}
    (h : "<@".data.isPrefixOf s = false) : mentionMatch s = none := by
  cases s with
  | nil => rfl
  | cons a t =>
    cases t with
    | nil => rfl
    | cons b u =>
      simp only [mentionMatch]
      rw [if_neg]
      rintro ⟨rfl, rfl⟩
      rw [show ("<@".data = '<' :: '@' :: ([] : Str)) from rfl] at h
      rw [isPrefixOf_cons₂] at h
      simp at h

theorem trim_all_digits {s : Str} (h : s.all Char.isDigit = true) : trim s = s :=
  trim_of_no_ws s (fun c hc => digit_not_ws (List.all_eq_true.mp h c hc))

/-- Reaching rule 7 of the parser: a non-empty all-digit string falls through
every structured-marker branch to the bare-numeric case. -/
theorem parseTrimmed_digits (s : Str) (opts : MessagingTargetParseOptions)
    (h1 : s ≠ []) (h2 : s.all Char.isDigit = true) :
    parseTrimmed s opts =
      (match opts.defaultKind with
       | some k => .ok (some ⟨k, s, s⟩)
       | none => .error (opts.ambiguousMessage.getD (ambiguousMsg s))) := by
  obtain ⟨c, cs, rfl⟩ : ∃ c cs, s = c :: cs := by
    cases s with
    | nil => exact absurd rfl h1
    | cons c cs => exact ⟨c, cs, rfl⟩
  have hc : c.isDigit = true := by
    have h2' := h2
    rw [List.all_cons, Bool.and_eq_true] at h2'
    exact h2'.1
  have hne : ∀ c' : Char, c'.isDigit = false → (c' == c) = false :=
    fun c' h' => beq_false_of_digit hc h'
  unfold parseTrimmed
  rw [if_neg (by exact List.cons_ne_nil c cs)]
  rw [mentionMatch_cons_ne cs (by rintro rfl; exact absurd hc (by decide))]
  rw [show ("user:".data = 'u' :: "ser:".data) from rfl, isPrefixOf_cons₂,
    hne 'u' (by decide), Bool.false_and]
  rw [show ("channel:".data = 'c' :: "hannel:".data) from rfl, isPrefixOf_cons₂,
    hne 'c' (by decide), Bool.false_and]
  rw [show ("discord:".data = 'd' :: "iscord:".data) from rfl, isPrefixOf_cons₂,
    hne 'd' (by decide), Bool.false_and]
  rw [show (headIs '@' (c :: cs) = (c == '@')) from rfl,
    beq_false_of_digit' hc (by decide)]
  rw [show (isAllDigits (c :: cs) = (!(c :: cs).isEmpty && (c :: cs).all Char.isDigit)) from rfl,
    h2]
  simp only [Bool.false_eq_true, if_false, List.isEmpty_cons, Bool.not_false, Bool.and_true,
    if_true]
  cases opts.defaultKind with
  | none => rfl
  | some k =>
    simp only [buildMessagingTarget, if_neg h1, Except.map]

/-! ## Disambiguator characterization (spec-side definitions, from the claim's words) -/

/-- Spec-side: the candidate set of the disambiguator, "entries with
`kind === "user"` and a present id" (§4.3 step 1). -/
def userCandidates (entries : List DirectoryEntry) : List DirectoryEntry :=
  entries.filter isUserEntry

/-- Spec-side: the exact normalized matches among the candidates (§4.3 steps 2-3). -/
def exactCandidates (query : Str) (entries : List DirectoryEntry) : List DirectoryEntry :=
  (userCandidates entries).filter (isExactDirMatch query)

/-- Spec-side: the selection rule — a unique exact match, else a lone candidate
of the FILTERED set, else nothing. -/
def chosenCandidate (query : Str) (entries : List DirectoryEntry) : Option DirectoryEntry :=
  if (exactCandidates query entries).length = 1 then (exactCandidates query entries).head?
  else if (userCandidates entries).length = 1 then (userCandidates entries).head?
  else none

/-- Spec-side: §4.3 step 5 — the chosen entry's id with a leading
case-insensitive `user:` stripped and trimmed; an empty result is a failure. -/
def resolvedOf (e : DirectoryEntry) : Option Str :=
  match e.id with
  | none => none
  | some i =>
    if i = [] then none
    else if trim (stripUserCI i) = [] then none
    else some (trim (stripUserCI i))

theorem select_eq_chosen (q : Str) (es : List DirectoryEntry) :
    selectDiscordUserMatch q es = (chosenCandidate q es).bind resolvedOf := by
  simp only [selectDiscordUserMatch, chosenCandidate, exactCandidates, userCandidates]
  by_cases h0 : (es.filter isUserEntry).length = 0
  · rw [if_pos h0]
    rw [List.length_eq_zero.mp h0]
    rfl
  · rw [if_neg h0]
    generalize (if ((es.filter isUserEntry).filter (isExactDirMatch q)).length = 1 then
        ((es.filter isUserEntry).filter (isExactDirMatch q)).head?
      else if (es.filter isUserEntry).length = 1 then (es.filter isUserEntry).head?
      else none) = sel
    cases sel with
    | none => rfl
    | some e => rfl

theorem resolvedOf_some_ne {e : DirectoryEntry} {i : Str}
    (h : resolvedOf e = some i) : i ≠ [] := by
  unfold resolvedOf at h
  cases hid : e.id with
  | none => rw [hid] at h; cases h
  | some j =>
    rw [hid] at h
    dsimp only at h
    by_cases hj : j = []
    · rw [if_pos hj] at h; cases h
    · rw [if_neg hj] at h
      by_cases hr : trim (stripUserCI j) = []
      · rw [if_pos hr] at h; cases h
      · rw [if_neg hr] at h
        cases h
        exact hr

theorem select_some_ne_nil {q : Str} {es : List DirectoryEntry} {i : Str}
    (h : selectDiscordUserMatch q es = some i) : i ≠ [] := by
  rw [select_eq_chosen] at h
  obtain ⟨e, _, hr⟩ := Option.bind_eq_some.mp h
  exact resolvedOf_some_ne hr

/-- The claim's original selection rule, verbatim: selection succeeds exactly
when there is a unique exact normalized match among the entries passed in, or
the pre-filter entry list has exactly one member. -/
def c1OriginalHolds (q : Str) (es : List DirectoryEntry) : Prop :=
  (selectDiscordUserMatch q es).isSome = true ↔
    ((es.filter (isExactDirMatch q)).length = 1 ∨ es.length = 1)

def entryU5 : DirectoryEntry := { kind := some "user".data, id := some "5".data }

def entryC9 : DirectoryEntry := { kind := some "channel".data, id := some "9".data }

def dirEmpty : Str → Nat → List DirectoryEntry := fun _ _ => []

def dirStub : Str → Nat → List DirectoryEntry := fun _ _ => [entryU5]

/-! ## The `raw` field of constructed targets -/

theorem build_map_ok {k : MessagingTargetKind} {id raw : Str} {t : MessagingTarget}
    (h : (buildMessagingTarget k id raw).map some = .ok (some t)) : t.raw = raw := by
  unfold buildMessagingTarget at h
  split at h
  · simp [Except.map] at h
  · simp only [Except.map, Except.ok.injEq, Option.some.injEq] at h
    subst h
    rfl

theorem parseTrimmed_ok_raw {tr : Str} {opts : MessagingTargetParseOptions}
    {t : MessagingTarget} (h : parseTrimmed tr opts = .ok (some t)) : t.raw = tr := by
  unfold parseTrimmed at h
  dsimp only at h
  repeat' split at h
  all_goals first | exact build_map_ok h | simp at h

theorem parse_ok_raw {raw : Str} {opts : MessagingTargetParseOptions}
    {t : MessagingTarget} (h : parseDiscordTarget raw opts = .ok (some t)) :
    t.raw = trim raw := parseTrimmed_ok_raw h

theorem safeParse_nil (opts : MessagingTargetParseOptions) :
    safeParseDiscordTarget [] opts = none := rfl

theorem safeParse_eq_some {input : Str} {opts : MessagingTargetParseOptions}
    {t : MessagingTarget} :
    safeParseDiscordTarget input opts = some t ↔
      parseDiscordTarget input opts = .ok (some t) := by
  unfold safeParseDiscordTarget
  cases hp : parseDiscordTarget input opts with
  | ok x => simp
  | error e => simp

theorem resolve_ok_raw {raw : Str} {dir : Str → Nat → List DirectoryEntry}
    {opts : MessagingTargetParseOptions} {t : MessagingTarget}
    (h : resolveDiscordTarget raw dir opts = .ok (some t)) : t.raw = trim raw := by
  unfold resolveDiscordTarget at h
  dsimp only at h
  by_cases h0 : trim raw = []
  · rw [if_pos h0] at h
    simp at h
  · rw [if_neg h0] at h
    split at h
    · rename_i hby
      cases hp : safeParseDiscordTarget (trim raw) opts with
      | none => rw [hp] at h; simp at h
      | some t' =>
        rw [hp] at h
        simp only [Except.ok.injEq, Option.some.injEq] at h
        subst h
        have hraw := parse_ok_raw (safeParse_eq_some.mp hp)
        rw [hraw, trim_idem]
    · split at h
      · split at h
        · rename_i t' hp
          simp only [Except.ok.injEq, Option.some.injEq] at h
          subst h
          have hraw := parse_ok_raw (safeParse_eq_some.mp hp)
          rw [hraw, trim_idem]
        · have hraw := parse_ok_raw h
          rw [hraw, trim_idem]
      · split at h
        · rename_i sel hsel
          unfold buildMessagingTarget at h
          split at h
          · simp [Except.map] at h
          · simp only [Except.map, Except.ok.injEq, Option.some.injEq] at h
            subst h
            rfl
        · split at h
          · simp at h
          · simp at h

/-! ## Claim theorems -/

/-- C1, counterexample: the claim's selection rule — an entry's id is selected
exactly when there is a unique exact normalized match or the pre-filter entry
list (the entries passed in) is a singleton — is false at query `"xyz"` with a
user entry (id `"5"`) and a channel entry (id `"9"`): there is no exact match
and two entries were passed in, yet the code selects `"5"`, because its
single-candidate fallback counts only the filtered user candidates. -/
theorem selectDiscordUserMatch_c1_counterexample :
    ¬ c1OriginalHolds "xyz".data [entryU5, entryC9] := by
  unfold c1OriginalHolds
  decide

/-- C1, amended: `selectDiscordUserMatch` selects by the rule: the unique exact
normalized match among the user-kind entries with a present id, else the lone
member of that filtered candidate set, else nothing; the chosen entry's id is
returned after a case-insensitive `user:` strip and a trim, with an empty
outcome counting as failure (`none`). -/
theorem selectDiscordUserMatch_characterization (q : Str) (es : List DirectoryEntry) :
    selectDiscordUserMatch q es = (chosenCandidate q es).bind resolvedOf :=
  select_eq_chosen q es

/-- C2: whenever the direct parse of the trimmed input succeeds with a
non-channel kind and the input is not flagged `likelyUsername`,
`resolveDiscordTarget` returns that parsed target, and its result does not
depend on the directory function at all. -/
theorem resolveDiscordTarget_explicit_bypass (raw : Str)
    (opts : MessagingTargetParseOptions) (dir dir' : Str → Nat → List DirectoryEntry)
    (t : MessagingTarget)
    (hp : safeParseDiscordTarget (trim raw) opts = some t)
    (hk : t.kind ≠ .channel)
    (hl : isLikelyUsername (trim raw) = false) :
    resolveDiscordTarget raw dir opts = .ok (some t) ∧
      resolveDiscordTarget raw dir opts = resolveDiscordTarget raw dir' opts := by
  have key : ∀ d : Str → Nat → List DirectoryEntry,
      resolveDiscordTarget raw d opts = .ok (some t) := by
    intro d
    have h0 : trim raw ≠ [] := by
      intro hnil
      rw [hnil, safeParse_nil] at hp
      exact Option.noConfusion hp
    unfold resolveDiscordTarget
    dsimp only
    rw [if_neg h0, hp, hl]
    have hby : directBypass (some t) false = true := by
      show (decide (t.kind ≠ .channel) && !false) = true
      rw [decide_eq_true hk]
      rfl
    rw [if_pos hby]
  exact ⟨key dir, (key dir).trans (key dir').symm⟩

/-- Witness for C2 at the input `"user:9"`: the resolver returns the parsed
user target with id `"9"` and gives the same result under two different
directories. -/
theorem resolveDiscordTarget_explicit_bypass_witness :
    resolveDiscordTarget "user:9".data dirEmpty ⟨none, none⟩ =
        .ok (some ⟨.user, "9".data, "user:9".data⟩) ∧
      resolveDiscordTarget "user:9".data dirEmpty ⟨none, none⟩ =
        resolveDiscordTarget "user:9".data dirStub ⟨none, none⟩ :=
  resolveDiscordTarget_explicit_bypass "user:9".data ⟨none, none⟩ dirEmpty dirStub
    ⟨.user, "9".data, "user:9".data⟩ (by rfl) (by decide) (by rfl)

/-- C3: a non-empty all-digit string with no `defaultKind` makes the parser
throw the ambiguity error, the caller-supplied message taking precedence over
the generic one; with `defaultKind = channel` it returns a channel target whose
id is the digit string. -/
theorem parseDiscordTarget_bare_digits (s : Str) (msg? : Option Str)
    (h1 : s ≠ []) (h2 : s.all Char.isDigit = true) :
    parseDiscordTarget s ⟨none, msg?⟩ = .error (msg?.getD (ambiguousMsg s)) ∧
      parseDiscordTarget s ⟨some .channel, msg?⟩ = .ok (some ⟨.channel, s, s⟩) := by
  unfold parseDiscordTarget
  rw [trim_all_digits h2, parseTrimmed_digits s _ h1 h2, parseTrimmed_digits s _ h1 h2]
  exact ⟨rfl, rfl⟩

/-- Witness for C3 at `"123"`, with no custom message. -/
theorem parseDiscordTarget_bare_digits_witness :
    parseDiscordTarget "123".data ⟨none, none⟩ = .error (ambiguousMsg "123".data) ∧
      parseDiscordTarget "123".data ⟨some .channel, none⟩ =
        .ok (some ⟨.channel, "123".data, "123".data⟩) :=
  parseDiscordTarget_bare_digits "123".data none (by decide) (by decide)

/-- C5, counterexample: the round-trip claim — every constructed target's
`raw` equals the original input string — fails for the padded input
`"  general  "`, whose target stores the trimmed `"general"`. -/
theorem target_raw_c5_counterexample :
    ∃ t : MessagingTarget,
      parseDiscordTarget "  general  ".data ⟨none, none⟩ = .ok (some t) ∧
        t.raw ≠ "  general  ".data :=
  ⟨⟨.channel, "general".data, "general".data⟩, by rfl, by decide⟩

/-- C5, amended: every target constructed by `parseDiscordTarget` or
`resolveDiscordTarget` stores the trimmed original input in its `raw` field —
never a directory-resolved name, and equal to the original input whenever the
input carries no surrounding whitespace. -/
theorem target_raw_eq_trimmed :
    (∀ (raw : Str) (opts : MessagingTargetParseOptions) (t : MessagingTarget),
        parseDiscordTarget raw opts = .ok (some t) → t.raw = trim raw) ∧
      (∀ (raw : Str) (dir : Str → Nat → List DirectoryEntry)
          (opts : MessagingTargetParseOptions) (t : MessagingTarget),
          resolveDiscordTarget raw dir opts = .ok (some t) → t.raw = trim raw) :=
  ⟨fun _ _ _ h => parse_ok_raw h, fun _ _ _ _ h => resolve_ok_raw h⟩

/-- Witness for C5 at the parse of `" general "`. -/
theorem target_raw_eq_trimmed_witness :
    parseDiscordTarget " general ".data ⟨none, none⟩ =
        .ok (some ⟨.channel, "general".data, "general".data⟩) ∧
      ("general".data : Str) = trim " general ".data :=
  ⟨by rfl, target_raw_eq_trimmed.1 " general ".data ⟨none, none⟩
    ⟨.channel, "general".data, "general".data⟩ (by rfl)⟩

/-- C6: the mention wrappers `<@123>` and `<@!123>` and the prefixes
`user:123` and `discord:123` all parse to a user target with id `"123"`, and
`channel:abc` parses to a channel target with id `"abc"`. -/
theorem parseDiscordTarget_explicit_forms :
    parseDiscordTarget "<@123>".data ⟨none, none⟩ =
        .ok (some ⟨.user, "123".data, "<@123>".data⟩) ∧
      parseDiscordTarget "<@!123>".data ⟨none, none⟩ =
        .ok (some ⟨.user, "123".data, "<@!123>".data⟩) ∧
      parseDiscordTarget "user:123".data ⟨none, none⟩ =
        .ok (some ⟨.user, "123".data, "user:123".data⟩) ∧
      parseDiscordTarget "discord:123".data ⟨none, none⟩ =
        .ok (some ⟨.user, "123".data, "discord:123".data⟩) ∧
      parseDiscordTarget "channel:abc".data ⟨none, none⟩ =
        .ok (some ⟨.channel, "abc".data, "channel:abc".data⟩) :=
  ⟨rfl, rfl, rfl, rfl, rfl⟩

/-- C10: for each of the three prefixes `user:`, `channel:` and `discord:`, the
prefix followed by nothing or only whitespace parses to `undefined` — no throw,
no empty-id target — whatever the options. -/
theorem parseDiscordTarget_marker_whitespace (s : Str)
    (h : ∀ c ∈ s, c.isWhitespace = true) (opts : MessagingTargetParseOptions) :
    parseDiscordTarget ("user:".data ++ s) opts = .ok none ∧
      parseDiscordTarget ("channel:".data ++ s) opts = .ok none ∧
      parseDiscordTarget ("discord:".data ++ s) opts = .ok none := by
  refine ⟨?_, ?_, ?_⟩ <;>
    · unfold parseDiscordTarget
      rw [trim_append_ws _ s (by
        intro c hc
        injection hc with hc
        rw [← hc]
        decide) h]
      rfl

/-- Witness for C10 with two spaces after each marker. -/
theorem parseDiscordTarget_marker_whitespace_witness :
    parseDiscordTarget ("user:".data ++ "  ".data) ⟨none, none⟩ = .ok none ∧
      parseDiscordTarget ("channel:".data ++ "  ".data) ⟨none, none⟩ = .ok none ∧
      parseDiscordTarget ("discord:".data ++ "  ".data) ⟨none, none⟩ = .ok none :=
  parseDiscordTarget_marker_whitespace "  ".data (by decide) ⟨none, none⟩

theorem isAllDigits_ne_nil {s : Str} (h : isAllDigits s = true) : s ≠ [] := by
  intro hnil
  rw [hnil] at h
  exact absurd h (by decide)

theorem parseTrimmed_at (rest : Str) (opts : MessagingTargetParseOptions) :
    parseTrimmed ('@' :: rest) opts =
      (match ensureTargetId (trim rest) isAllDigits mentionErrMsg with
       | .error e => .error e
       | .ok id => (buildMessagingTarget .user id ('@' :: rest)).map some) := by
  unfold parseTrimmed
  rw [mentionMatch_cons_ne rest (by decide)]
  rfl

/-- C4: when the resolver takes the directory-lookup path, a selected id yields
a user target with that id and the trimmed input as `raw`; a failed selection
yields the "did not match a user" error if the directory returned nothing and
the "multiple users matched" error otherwise. -/
theorem resolveDiscordTarget_lookup_outcomes (raw : Str)
    (opts : MessagingTargetParseOptions) (dir : Str → Nat → List DirectoryEntry)
    (h0 : trim raw ≠ [])
    (hs : (isExplicitUserLookup (trim raw) opts || isLikelyUsername (trim raw)) = true)
    (hb : match safeParseDiscordTarget (trim raw) opts with
          | some t => t.kind = .channel ∨ isLikelyUsername (trim raw) = true
          | none => True) :
    (∀ i, selectDiscordUserMatch (trim raw) (dir (trim raw) 5) = some i →
        resolveDiscordTarget raw dir opts = .ok (some ⟨.user, i, trim raw⟩)) ∧
      (selectDiscordUserMatch (trim raw) (dir (trim raw) 5) = none →
        dir (trim raw) 5 = [] →
        resolveDiscordTarget raw dir opts = .error (noMatchMsg (trim raw))) ∧
      (selectDiscordUserMatch (trim raw) (dir (trim raw) 5) = none →
        dir (trim raw) 5 ≠ [] →
        resolveDiscordTarget raw dir opts = .error (multiMatchMsg (trim raw))) := by
  have hby : directBypass (safeParseDiscordTarget (trim raw) opts)
      (isLikelyUsername (trim raw)) = false := by
    cases hp : safeParseDiscordTarget (trim raw) opts with
    | none => rfl
    | some t =>
      rw [hp] at hb
      dsimp only at hb
      show (decide (t.kind ≠ .channel) && !(isLikelyUsername (trim raw))) = false
      rcases hb with hk | hl
      · rw [show decide (t.kind ≠ .channel) = false from by simp [hk]]
        exact Bool.false_and _
      · rw [hl]
        simp
  have main : resolveDiscordTarget raw dir opts =
      (match selectDiscordUserMatch (trim raw) (dir (trim raw) 5) with
       | some selected => (buildMessagingTarget .user selected (trim raw)).map some
       | none =>
         if (dir (trim raw) 5).length = 0 then .error (noMatchMsg (trim raw))
         else .error (multiMatchMsg (trim raw))) := by
    unfold resolveDiscordTarget
    dsimp only
    rw [if_neg h0, hby, hs]
    rfl
  refine ⟨?_, ?_, ?_⟩
  · intro i hi
    rw [main, hi]
    dsimp only
    unfold buildMessagingTarget
    rw [if_neg (select_some_ne_nil hi)]
    rfl
  · intro hn hnil
    rw [main, hn, hnil]
    rfl
  · intro hn hne
    rw [main, hn]
    dsimp only
    rw [if_neg (by rw [List.length_eq_zero]; exact hne)]

/-- Witness for C4 at the username `"alice"` with an empty directory: the
resolver rejects with the "did not match a user" error. -/
theorem resolveDiscordTarget_lookup_outcomes_witness :
    resolveDiscordTarget "alice".data dirEmpty ⟨none, none⟩ =
      .error (noMatchMsg "alice".data) :=
  (resolveDiscordTarget_lookup_outcomes "alice".data ⟨none, none⟩ dirEmpty
    (by decide) (by decide) (by exact Or.inl rfl)).2.1 (by rfl) rfl

/-- The outcome-tag of a parse: `true` when it returned (possibly `undefined`),
`false` when it threw. -/
def exceptIsOk {ε α : Type} : Except ε α → Bool
  | .ok _ => true
  | .error _ => false

deriving instance DecidableEq for Except

/-- The original C7 claim, verbatim, at one input: if the remainder after the
`@` is a string of only digits the parse returns that user target, and
otherwise the parse throws. -/
def c7ClaimAt (raw : Str) (opts : MessagingTargetParseOptions) : Prop :=
  (isAllDigits ((trim raw).drop 1) = true →
      parseDiscordTarget raw opts = .ok (some ⟨.user, (trim raw).drop 1, trim raw⟩)) ∧
    (isAllDigits ((trim raw).drop 1) = false →
      exceptIsOk (parseDiscordTarget raw opts) = false)

/-- C7, counterexample: at `"@ 123"` the remainder after the `@` is `" 123"`,
not a string of only digits, yet the parser does not throw — it re-trims the
remainder and returns the user target with id `"123"`. -/
theorem parseDiscordTarget_c7_counterexample :
    ¬ c7ClaimAt "@ 123".data ⟨none, none⟩ := by
  unfold c7ClaimAt
  decide

/-- C7, amended: for an input whose trimmed form starts with `@`, if the
remainder after the `@`, trimmed again, is a non-empty string of only digits,
the parse returns the user target with that digit string as id; otherwise it
throws the error naming the accepted alternatives (`user:<id>` or a `<@id>`
mention). -/
theorem parseDiscordTarget_at_branch (raw : Str) (opts : MessagingTargetParseOptions)
    (h : headIs '@' (trim raw) = true) :
    (isAllDigits (trim ((trim raw).drop 1)) = true →
        parseDiscordTarget raw opts =
          .ok (some ⟨.user, trim ((trim raw).drop 1), trim raw⟩)) ∧
      (isAllDigits (trim ((trim raw).drop 1)) = false →
        parseDiscordTarget raw opts = .error mentionErrMsg) := by
  obtain ⟨rest, htr⟩ : ∃ rest, trim raw = '@' :: rest := by
    cases htr : trim raw with
    | nil => rw [htr] at h; exact absurd h (by decide)
    | cons c cs =>
      rw [htr] at h
      have hc : c = '@' := beq_iff_eq.mp h
      exact ⟨cs, by rw [hc]⟩
  unfold parseDiscordTarget
  rw [htr, parseTrimmed_at]
  simp only [List.drop_one, List.tail_cons]
  constructor
  · intro hd
    unfold ensureTargetId
    rw [hd, if_pos rfl]
    dsimp only
    unfold buildMessagingTarget
    rw [if_neg (isAllDigits_ne_nil hd)]
    rfl
  · intro hd
    unfold ensureTargetId
    rw [hd, if_neg (by exact Bool.false_ne_true)]

/-- Witness for C7 at `"@123"`. -/
theorem parseDiscordTarget_at_branch_witness :
    parseDiscordTarget "@123".data ⟨none, none⟩ =
      .ok (some ⟨.user, "123".data, "@123".data⟩) :=
  (parseDiscordTarget_at_branch "@123".data ⟨none, none⟩ (by decide)).1 (by decide)

/-- C8: `resolveDiscordChannelId` returns `"42"` on `"channel:42"`, and throws
the platform-labeled kind-mismatch error on every input that parses (with
`defaultKind = channel`) to a user-kind target. -/
theorem resolveDiscordChannelId_spec :
    resolveDiscordChannelId "channel:42".data = .ok "42".data ∧
      ∀ (raw : Str) (t : MessagingTarget),
        parseDiscordTarget raw ⟨some .channel, none⟩ = .ok (some t) →
        t.kind = .user →
        resolveDiscordChannelId raw = .error (kindMismatchMsg "Discord".data) := by
  refine ⟨rfl, ?_⟩
  intro raw t hp hk
  unfold resolveDiscordChannelId
  rw [hp]
  unfold requireTargetKind
  dsimp only
  rw [hk, if_neg (by intro hc; cases hc)]

/-- Witness for C8 at the user-kind inputs `"user:5"` and `"<@123>"`. -/
theorem resolveDiscordChannelId_spec_witness :
    resolveDiscordChannelId "user:5".data = .error (kindMismatchMsg "Discord".data) :=
  resolveDiscordChannelId_spec.2 "user:5".data ⟨.user, "5".data, "user:5".data⟩
    (by rfl) (by rfl)

/-- C9, counterexample: `"123"` starts with none of the structured markers and
ends with a decimal digit, so the claim puts it in the no-lookup,
channel-target family; but being all digits with no `defaultKind`, the
resolver re-raises the parser's ambiguity error instead of returning a channel
target. -/
theorem resolveDiscordTarget_c9_counterexample :
    ("user:".data.isPrefixOf (trim "123".data) = false ∧
        "channel:".data.isPrefixOf (trim "123".data) = false ∧
        "discord:".data.isPrefixOf (trim "123".data) = false ∧
        "<@".data.isPrefixOf (trim "123".data) = false ∧
        headIs '@' (trim "123".data) = false ∧
        endsWithDigit (trim "123".data) = true) ∧
      resolveDiscordTarget "123".data dirEmpty ⟨none, none⟩ =
        .error (ambiguousMsg "123".data) :=
  ⟨by decide, by rfl⟩

/-- C9, amended: for every input whose trimmed form starts with none of the
structured markers (`user:`, `channel:`, `discord:`, a leading `@`, or `<@`),
ends with a decimal digit, and is not entirely digits, `isLikelyUsername` is
false, the resolver performs no directory lookup, and it returns the
direct-parse result: a channel target whose id is the trimmed input. -/
theorem resolveDiscordTarget_trailing_digit (raw : Str)
    (opts : MessagingTargetParseOptions) (dir dir' : Str → Nat → List DirectoryEntry)
    (h0 : trim raw ≠ [])
    (h1 : "user:".data.isPrefixOf (trim raw) = false)
    (h2 : "channel:".data.isPrefixOf (trim raw) = false)
    (h3 : "discord:".data.isPrefixOf (trim raw) = false)
    (h4 : "<@".data.isPrefixOf (trim raw) = false)
    (h5 : headIs '@' (trim raw) = false)
    (h6 : endsWithDigit (trim raw) = true)
    (h7 : isAllDigits (trim raw) = false) :
    resolveDiscordTarget raw dir opts = .ok (some ⟨.channel, trim raw, trim raw⟩) ∧
      resolveDiscordTarget raw dir opts = resolveDiscordTarget raw dir' opts := by
  have hlik : isLikelyUsername (trim raw) = false := by
    unfold isLikelyUsername
    rw [h6]
    simp
  have hment : mentionMatch (trim raw) = none := mentionMatch_of_not_marker h4
  have hexp : isExplicitUserLookup (trim raw) opts = false := by
    unfold isExplicitUserLookup
    rw [hment, h1, h3, h5, h7]
    rfl
  have hparse : parseTrimmed (trim raw) opts =
      .ok (some ⟨.channel, trim raw, trim raw⟩) := by
    unfold parseTrimmed
    dsimp only
    rw [if_neg h0, hment]
    dsimp only
    rw [h1, h2, h3, h5, h7]
    simp only [Bool.false_eq_true, if_false]
    unfold buildMessagingTarget
    rw [if_neg h0]
    rfl
  have hsafe : safeParseDiscordTarget (trim raw) opts =
      some ⟨.channel, trim raw, trim raw⟩ := by
    unfold safeParseDiscordTarget parseDiscordTarget
    rw [trim_idem, hparse]
  have key : ∀ d : Str → Nat → List DirectoryEntry,
      resolveDiscordTarget raw d opts = .ok (some ⟨.channel, trim raw, trim raw⟩) := by
    intro d
    unfold resolveDiscordTarget
    dsimp only
    rw [if_neg h0, hsafe, hlik, hexp]
    rfl
  exact ⟨key dir, (key dir).trans (key dir').symm⟩

/-- Witness for C9 at `"john2"` (not a marker form, ends with a digit, not all
digits): the resolver returns the channel target and ignores the directory. -/
theorem resolveDiscordTarget_trailing_digit_witness :
    resolveDiscordTarget "john2".data dirEmpty ⟨none, none⟩ =
        .ok (some ⟨.channel, "john2".data, "john2".data⟩) ∧
      resolveDiscordTarget "john2".data dirEmpty ⟨none, none⟩ =
        resolveDiscordTarget "john2".data dirStub ⟨none, none⟩ :=
  resolveDiscordTarget_trailing_digit "john2".data ⟨none, none⟩ dirEmpty dirStub
    (by decide) (by decide) (by decide) (by decide) (by decide) (by decide)
    (by decide) (by decide)
